import Mathlib

/-! libremidi: output drivers (WinMM, ALSA raw UMP) and PipeWire helpers.

A shallow embedding of

* `include/libremidi/backends/winmm/midi_out.hpp` (`midi_out_winmm`),
* `include/libremidi/backends/alsa_raw_ump/midi_out.hpp` (`midi_out_impl`),
* `include/libremidi/backends/pipewire/helpers.hpp` (`pipewire_helpers`).

Native libraries (WinMM, libasound, PipeWire) are opaque: every native function is a
field of an interface record acting on an abstract world `σ`, and every driver keeps a
chronological log of the native calls it made and of the errors / warnings it reported.
A `std::string` is the list of its characters, a byte is a natural number, a null
pointer is `none`.
-/

namespace libremidi

/-! ## Common data -/

/-- A `std::string`: the sequence of its characters. -/
abbrev Str := List Char

/-- The `std::errc` values the drivers return. -/
inductive errc where
  | not_connected
  | invalid_argument
  | message_size
  deriving DecidableEq, Repr

/-- A `std::error_code`: `success` is `std::error_code{}`, `generic e` is
`std::make_error_code(e)`, and `native r` is the code that `from_mmerr(r)` /
`from_errc(r)` build from the native result `r` (those two helpers are declared in the
backends' `helpers.hpp`; only the native result they wrap is kept). -/
inductive error_code where
  | success
  | generic (e : errc)
  | native (r : Int)
  deriving DecidableEq, Repr

/-- The error classes handed to `error<...>(configuration, message)`. -/
inductive error_type where
  | driver_error
  | invalid_parameter_error
  | invalid_use_error
  deriving DecidableEq, Repr

/-- The fields of `input_port` / `output_port` (both are a `port_information`). -/
structure port_information where
  client : Nat
  port : Nat
  manufacturer : Str
  device_name : Str
  port_name : Str
  display_name : Str
  deriving DecidableEq, Repr

/-! ## WinMM output driver -/

namespace winmm

/-- An `HMIDIOUT`; `none` is the null handle. -/
abbrev HMIDIOUT := Option Nat

/-- The value of `MMSYSERR_NOERROR`. -/
def MMSYSERR_NOERROR : Nat := 0

/-- The value of `MIDIERR_STILLPLAYING` (`MIDIERR_BASE + 1`). -/
def MIDIERR_STILLPLAYING : Nat := 65

/-- What the driver does to the outside, in the order it does it: native WinMM calls,
`Sleep`, and the reports sent through `error<...>` and `warning`. A `MIDIHDR` is
recorded as its `lpData` bytes and its `dwBufferLength`. -/
inductive call where
  | midiOutOpen (portNumber : Nat)
  | midiOutClose (h : HMIDIOUT)
  | midiOutPrepareHeader (h : HMIDIOUT) (lpData : List Nat) (dwBufferLength : Nat)
  | midiOutLongMsg (h : HMIDIOUT) (lpData : List Nat) (dwBufferLength : Nat)
  | midiOutUnprepareHeader (h : HMIDIOUT) (lpData : List Nat) (dwBufferLength : Nat)
  | midiOutShortMsg (h : HMIDIOUT) (packet : Nat)
  | Sleep (ms : Nat)
  | error (t : error_type) (msg : Str)
  | warning (msg : Str)
  deriving DecidableEq, Repr

/-- The native side of the WinMM driver over a world `σ`. `midiOutOpen` receives the old
content of the handle variable it writes to and returns its new content; the other
functions return the new world and their `MMRESULT`. `get_output_ports` is the
enumeration of a fresh `observer_winmm`; `indeterminate_DWORD` is the content of the
uninitialised local `DWORD packet`. -/
structure api (σ : Type) where
  get_output_ports : σ → List port_information
  midiOutOpen : σ → HMIDIOUT → Nat → σ × Nat × HMIDIOUT
  midiOutClose : σ → HMIDIOUT → σ
  midiOutPrepareHeader : σ → HMIDIOUT → List Nat → Nat → σ × Nat
  midiOutLongMsg : σ → HMIDIOUT → List Nat → Nat → σ × Nat
  midiOutUnprepareHeader : σ → HMIDIOUT → List Nat → Nat → σ × Nat
  midiOutShortMsg : σ → HMIDIOUT → Nat → σ × Nat
  Sleep : σ → Nat → σ
  indeterminate_DWORD : σ → Nat

/-- The object `midi_out_winmm`: its members `outHandle` and `buffer`, the inherited flag
`connected_`, the native world and the log of calls made so far. -/
structure midi_out_winmm (σ : Type) where
  outHandle : HMIDIOUT
  buffer : List Nat
  connected_ : Bool
  world : σ
  calls : List call

/-- Appends one entry to the log. -/
def midi_out_winmm.log {σ : Type} (s : midi_out_winmm σ) (c : call) : midi_out_winmm σ :=
  { s with calls := s.calls ++ [c] }

/-- The conversion of an unsigned value to `unsigned int` (32 bits), as happens when the
64-bit port handle of a descriptor is passed to `do_open(unsigned int portNumber)`. -/
def to_unsigned_int (n : Nat) : Nat := n % 2 ^ 32

/-- The conversion of an unsigned value to `DWORD` (32 bits), as happens when the `size_t`
message size is stored in `MIDIHDR::dwBufferLength`. -/
def to_DWORD (n : Nat) : Nat := n % 2 ^ 32

/-- The function `from_mmerr`, applied to a native result. -/
def from_mmerr (result : Nat) : error_code := error_code.native (Int.ofNat result)

/-- The method `midi_out_winmm::do_open`; `portNumber` is an `unsigned int`, so callers
pass a value already converted with `to_unsigned_int`. -/
def do_open {σ : Type} (w : api σ) (s : midi_out_winmm σ) (portNumber : Nat) :
    midi_out_winmm σ × error_code :=
  let r := w.midiOutOpen s.world s.outHandle portNumber
  let s1 := ({ s with world := r.1, outHandle := r.2.2 }).log (call.midiOutOpen portNumber)
  if r.2.1 ≠ MMSYSERR_NOERROR then
    (s1.log (call.error error_type.driver_error
        "midi_out_winmm::open_port: error creating Windows MM MIDI output port.".toList),
      from_mmerr r.2.1)
  else
    (s1, error_code.success)

/-- The first loop of `open_port`: the first port with the requested display name. -/
def open_port_display_loop (p : port_information) :
    List port_information → Option port_information
  | [] => none
  | port :: rest =>
    if p.display_name = port.display_name then some port
    else open_port_display_loop p rest

/-- The second loop of `open_port`: the first port with the requested raw name. -/
def open_port_raw_loop (p : port_information) :
    List port_information → Option port_information
  | [] => none
  | port :: rest =>
    if p.port_name = port.port_name then some port
    else open_port_raw_loop p rest

/-- The method `midi_out_winmm::open_port` (the second argument is unused). -/
def open_port {σ : Type} (w : api σ) (s : midi_out_winmm σ) (p : port_information) :
    midi_out_winmm σ × error_code :=
  let ports := w.get_output_ports s.world
  match open_port_display_loop p ports with
  | some port => do_open w s (to_unsigned_int port.port)
  | none =>
    match open_port_raw_loop p ports with
    | some port => do_open w s (to_unsigned_int port.port)
    | none =>
      (s.log (call.error error_type.invalid_parameter_error
          ("midi_out_winmm::open_port: port not found: ".toList ++ p.port_name)),
        error_code.generic errc.invalid_argument)

/-- The method `midi_out_winmm::close_port`. -/
def close_port {σ : Type} (w : api σ) (s : midi_out_winmm σ) :
    midi_out_winmm σ × error_code :=
  let s1 :=
    if s.outHandle.isSome then
      ({ s with world := w.midiOutClose s.world s.outHandle }).log
        (call.midiOutClose s.outHandle)
    else s
  ({ s1 with outHandle := none, connected_ := false }, error_code.success)

/-- The four bytes of a `DWORD`, least significant first (the memory layout on x86). -/
def dword_bytes (d : Nat) : List Nat :=
  [d % 256, d / 256 % 256, d / 65536 % 256, d / 16777216 % 256]

/-- The `DWORD` stored as the given bytes, least significant first. -/
def bytes_dword : List Nat → Nat
  | [] => 0
  | b :: rest => b % 256 + 256 * bytes_dword rest

/-- The statement `std::copy_n(message, size, (unsigned char*)&packet)` for a message of at
most four bytes: the first `size` bytes of `packet` are overwritten. -/
def copy_n_packet (message : List Nat) (packet : Nat) : Nat :=
  bytes_dword (message ++ (dword_bytes packet).drop message.length)

/-- The loop `while (MIDIERR_STILLPLAYING == midiOutUnprepareHeader(...)) Sleep(1);` run
for at most `fuel` calls of `midiOutUnprepareHeader`; the flag tells whether the loop was
left. -/
def unprepare_loop {σ : Type} (w : api σ) (dwBufferLength : Nat) :
    Nat → midi_out_winmm σ → midi_out_winmm σ × Bool
  | 0, s => (s, false)
  | fuel + 1, s =>
    let r := w.midiOutUnprepareHeader s.world s.outHandle s.buffer dwBufferLength
    let s1 := ({ s with world := r.1 }).log
      (call.midiOutUnprepareHeader s.outHandle s.buffer dwBufferLength)
    if MIDIERR_STILLPLAYING = r.2 then
      unprepare_loop w dwBufferLength fuel (({ s1 with world := w.Sleep s1.world 1 }).log (call.Sleep 1))
    else (s1, true)

/-- The method `midi_out_winmm::send_message`; `message` holds the `size` bytes the pointer
refers to. The `MIDIHDR` of the SysEx branch carries the buffer and `dwBufferLength`, the
size converted to `DWORD`. The result is `none` when the unprepare loop is still running
after `fuel` rounds. -/
def send_message {σ : Type} (w : api σ) (fuel : Nat) (s : midi_out_winmm σ)
    (message : List Nat) : midi_out_winmm σ × Option error_code :=
  let size := message.length
  if ¬ s.connected_ then
    (s, some (error_code.generic errc.not_connected))
  else if size = 0 then
    (s.log (call.warning "midi_out_winmm::send_message: message argument is empty!".toList),
      some (error_code.generic errc.invalid_argument))
  else if message.head? = some 0xF0 then
    let s1 := { s with buffer := message }
    let dwBufferLength := to_DWORD size
    let r := w.midiOutPrepareHeader s1.world s1.outHandle s1.buffer dwBufferLength
    let s2 := ({ s1 with world := r.1 }).log
      (call.midiOutPrepareHeader s1.outHandle s1.buffer dwBufferLength)
    if r.2 ≠ MMSYSERR_NOERROR then
      (s2.log (call.error error_type.driver_error
          "midi_out_winmm::send_message: error preparing sysex header.".toList),
        some (from_mmerr r.2))
    else
      let r2 := w.midiOutLongMsg s2.world s2.outHandle s2.buffer dwBufferLength
      let s3 := ({ s2 with world := r2.1 }).log
        (call.midiOutLongMsg s2.outHandle s2.buffer dwBufferLength)
      if r2.2 ≠ MMSYSERR_NOERROR then
        (s3.log (call.error error_type.driver_error
            "midi_out_winmm::send_message: error sending sysex message.".toList),
          some (from_mmerr r2.2))
      else
        let l := unprepare_loop w dwBufferLength fuel s3
        (l.1, if l.2 then some error_code.success else none)
  else if size > 3 then
    (s.log (call.warning
        "midi_out_winmm::send_message: message size is greater than 3 bytes (and not sysex)!".toList),
      some (error_code.generic errc.message_size))
  else
    let packet := copy_n_packet message (w.indeterminate_DWORD s.world)
    let r := w.midiOutShortMsg s.world s.outHandle packet
    let s1 := ({ s with world := r.1 }).log (call.midiOutShortMsg s.outHandle packet)
    if r.2 ≠ MMSYSERR_NOERROR then
      (s1.log (call.error error_type.driver_error
          "midi_out_winmm::send_message: error sending MIDI message.".toList),
        some (from_mmerr r.2))
    else
      (s1, some error_code.success)

/-- Whether a log entry is a native write: `midiOutShortMsg`, `midiOutPrepareHeader` or
`midiOutLongMsg`. -/
def call.is_write : call → Bool
  | call.midiOutShortMsg _ _ => true
  | call.midiOutPrepareHeader _ _ _ => true
  | call.midiOutLongMsg _ _ _ => true
  | _ => false

/-- Whether a log entry is a `midiOutShortMsg`. -/
def call.is_short : call → Bool
  | call.midiOutShortMsg _ _ => true
  | _ => false

/-- Whether a log entry is a `midiOutOpen`. -/
def call.is_open : call → Bool
  | call.midiOutOpen _ => true
  | _ => false

/-- Whether a log entry is a `midiOutClose`. -/
def call.is_close : call → Bool
  | call.midiOutClose _ => true
  | _ => false

/-- The port numbers given to `midiOutOpen` in a log, in order. -/
def opened_ports : List call → List Nat
  | [] => []
  | call.midiOutOpen n :: rest => n :: opened_ports rest
  | _ :: rest => opened_ports rest

/-- A WinMM world for examples: two output ports, every native call succeeds and returns
handle 7 on open. -/
def example_api : api Unit where
  get_output_ports := fun _ =>
    [ { client := 0, port := 4, manufacturer := [], device_name := [],
        port_name := "raw A".toList, display_name := "KEYS 1".toList },
      { client := 0, port := 9, manufacturer := [], device_name := [],
        port_name := "raw B".toList, display_name := "KEYS 2".toList } ]
  midiOutOpen := fun _ _ _ => ((), 0, some 7)
  midiOutClose := fun _ _ => ()
  midiOutPrepareHeader := fun _ _ _ _ => ((), 0)
  midiOutLongMsg := fun _ _ _ _ => ((), 0)
  midiOutUnprepareHeader := fun _ _ _ _ => ((), 0)
  midiOutShortMsg := fun _ _ _ => ((), 0)
  Sleep := fun _ _ => ()
  indeterminate_DWORD := fun _ => 0

/-- The world of `example_api` with a `midiOutPrepareHeader` that fails with result 11. -/
def failing_prepare_api : api Unit :=
  { example_api with midiOutPrepareHeader := fun _ _ _ _ => ((), 11) }

/-- A driver on which no port is open. -/
def closed_driver : midi_out_winmm Unit :=
  { outHandle := none, buffer := [], connected_ := false, world := (), calls := [] }

/-- A driver with an open, connected port. -/
def open_driver : midi_out_winmm Unit :=
  { outHandle := some 7, buffer := [], connected_ := true, world := (), calls := [] }

/-- A request whose display name is that of the second enumerated port. -/
def request_keys_2 : port_information :=
  { client := 0, port := 0, manufacturer := [], device_name := [],
    port_name := "stale".toList, display_name := "KEYS 2".toList }

/-- A request that matches no display name but carries the raw name of the second port. -/
def request_raw_b : port_information :=
  { client := 0, port := 0, manufacturer := [], device_name := [],
    port_name := "raw B".toList, display_name := "renamed".toList }

/-- The world of `example_api` whose only enumerated port carries a handle that does not
fit in 32 bits. -/
def wide_handle_api : api Unit :=
  { example_api with
    get_output_ports := fun _ =>
      [ { client := 0, port := 2 ^ 32 + 5, manufacturer := [], device_name := [],
          port_name := "raw B".toList, display_name := "KEYS 2".toList } ] }

/-- A request that matches no enumerated port. -/
def request_unknown : port_information :=
  { client := 0, port := 0, manufacturer := [], device_name := [],
    port_name := "nope".toList, display_name := "nothing".toList }

end winmm

/-! ## ALSA raw UMP output driver -/

namespace alsa_raw_ump

/-- A `snd_ump_t*`; `none` is the null pointer. -/
abbrev snd_ump_t := Option Nat

/-- What the driver does to the outside: calls into `snd.ump` and error reports. -/
inductive call where
  | ump_close (h : snd_ump_t)
  | ump_write (h : snd_ump_t) (ump_stream : List Nat) (bytes : Nat)
  | error (t : error_type) (msg : Str)
  deriving DecidableEq, Repr

/-- The part of `libasound` (`snd.ump`) the claims need, over a world `σ`. -/
structure libasound (σ : Type) where
  ump_close : σ → snd_ump_t → σ
  ump_write : σ → snd_ump_t → List Nat → Nat → σ × Int

/-- The object `alsa_raw_ump::midi_out_impl`: its member `midiport_`, the native world and
the log of calls made so far. The driver's own test for an open port is `midiport_`
being non-null (`if (!midiport_)` in `send_ump`). -/
structure midi_out_impl (σ : Type) where
  midiport_ : snd_ump_t
  world : σ
  calls : List call

/-- Appends one entry to the log. -/
def midi_out_impl.log {σ : Type} (s : midi_out_impl σ) (c : call) : midi_out_impl σ :=
  { s with calls := s.calls ++ [c] }

/-- The function `from_errc`, applied to a native result. -/
def from_errc (err : Int) : error_code := error_code.native err

/-- The method `midi_out_impl::close_port`. -/
def close_port {σ : Type} (snd : libasound σ) (s : midi_out_impl σ) :
    midi_out_impl σ × error_code :=
  let s1 :=
    if s.midiport_.isSome then
      ({ s with world := snd.ump_close s.world s.midiport_ }).log (call.ump_close s.midiport_)
    else s
  ({ s1 with midiport_ := none }, error_code.success)

/-- The method `midi_out_impl::write`. -/
def write {σ : Type} (snd : libasound σ) (s : midi_out_impl σ) (ump_stream : List Nat)
    (bytes : Nat) : midi_out_impl σ × error_code :=
  let r := snd.ump_write s.world s.midiport_ ump_stream bytes
  let s1 := ({ s with world := r.1 }).log (call.ump_write s.midiport_ ump_stream bytes)
  if r.2 < 0 then
    (s1.log (call.error error_type.driver_error
        "midi_out_alsa_raw::send_message: cannot write message.".toList),
      from_errc r.2)
  else
    (s1, error_code.success)

/-- The method `midi_out_impl::send_ump`; `count * sizeof(uint32_t)` is computed in
`size_t` (64 bits). -/
def send_ump {σ : Type} (snd : libasound σ) (s : midi_out_impl σ) (ump_stream : List Nat)
    (count : Nat) : midi_out_impl σ × error_code :=
  let s1 :=
    if s.midiport_.isNone then
      s.log (call.error error_type.invalid_use_error
        "midi_out_alsa_raw::send_message: trying to send a message without an open port.".toList)
    else s
  write snd s1 ump_stream (count * 4 % 2 ^ 64)

/-- Whether a log entry is a native write. -/
def call.is_write : call → Bool
  | call.ump_write _ _ _ => true
  | _ => false

/-- Whether a log entry is a native close. -/
def call.is_close : call → Bool
  | call.ump_close _ => true
  | _ => false

/-- An ALSA world for examples: `snd.ump.write` accepts everything and reports the number
of bytes it was given. -/
def example_snd : libasound Unit where
  ump_close := fun _ _ => ()
  ump_write := fun _ _ _ bytes => ((), Int.ofNat bytes)

/-- A freshly constructed driver: no port was ever opened. -/
def fresh_driver : midi_out_impl Unit :=
  { midiport_ := none, world := (), calls := [] }

end alsa_raw_ump

/-! ## PipeWire helpers -/

namespace pipewire

/-- The enumeration `spa_direction`. -/
inductive spa_direction where
  | SPA_DIRECTION_INPUT
  | SPA_DIRECTION_OUTPUT
  deriving DecidableEq, Repr

/-- The members of `pipewire_context::port_info` that `pipewire_helpers` reads. -/
structure port_info where
  id : Nat
  format : Str
  port_name : Str
  port_alias : Str
  physical : Bool
  direction : spa_direction
  deriving DecidableEq, Repr

/-- The call `s.find(c)` of `std::string` for a character; `none` is `npos`. -/
def find_char (c : Char) : Str → Option Nat
  | [] => none
  | x :: rest => if x = c then some 0 else (find_char c rest).map (· + 1)

/-- The call `s.find(pat)` of `std::string` for a string; `none` is `npos`. -/
def find_str (pat : Str) : Str → Option Nat
  | [] => if pat.isPrefixOf [] then some 0 else none
  | x :: rest =>
    if pat.isPrefixOf (x :: rest) then some 0 else (find_str pat rest).map (· + 1)

/-- The call `s.substr(pos, count)`. -/
def substr (s : Str) (pos count : Nat) : Str := (s.drop pos).take count

/-- The call `s.substr(pos)`. -/
def substr_from (s : Str) (pos : Nat) : Str := s.drop pos

/-- The function `to_port_info<Direction>`. The template argument only selects the C++
result type (`input_port` or `output_port`, both a `port_information`), so it is not a
parameter here. -/
def to_port_info (port : port_info) : port_information :=
  let name_colon := find_char ':' port.port_alias
  let names : Str × Str :=
    match name_colon with
    | some n => (substr port.port_alias 0 n, substr_from port.port_alias (n + 1))
    | none => ([], port.port_alias)
  { client := 0
    port := port.id
    manufacturer := []
    device_name := names.1
    port_name := port.port_name
    display_name := names.2 }

/-- The members of `observer_configuration` that `add_callbacks` reads. A callback slot
(`std::function`) is `true` when it holds a callable. -/
structure observer_configuration where
  track_hardware : Bool
  track_virtual : Bool
  track_any : Bool
  input_added : Bool
  input_removed : Bool
  output_added : Bool
  output_removed : Bool
  deriving DecidableEq, Repr

/-- One invocation of an observer callback with the descriptor it received. -/
inductive callback where
  | input_added (p : port_information)
  | input_removed (p : port_information)
  | output_added (p : port_information)
  | output_removed (p : port_information)
  deriving DecidableEq, Repr

/-- The hook `on_port_added` installed by `add_callbacks`: the callbacks it invokes for one
port event, in order. -/
def on_port_added (conf : observer_configuration) (port : port_info) : List callback :=
  if find_str "midi".toList port.format = none then []
  else
    let unfiltered := conf.track_any
    let unfiltered := unfiltered || (port.physical && conf.track_hardware)
    let unfiltered := unfiltered || (!port.physical && conf.track_virtual)
    if unfiltered then
      if port.direction = spa_direction.SPA_DIRECTION_INPUT then
        if conf.output_added then [callback.output_added (to_port_info port)] else []
      else
        if conf.input_added then [callback.input_added (to_port_info port)] else []
    else []

/-- The hook `on_port_removed` installed by `add_callbacks`. -/
def on_port_removed (conf : observer_configuration) (port : port_info) : List callback :=
  if find_str "midi".toList port.format = none then []
  else
    let unfiltered := conf.track_any
    let unfiltered := unfiltered || (port.physical && conf.track_hardware)
    let unfiltered := unfiltered || (!port.physical && conf.track_virtual)
    if unfiltered then
      if port.direction = spa_direction.SPA_DIRECTION_INPUT then
        if conf.output_removed then [callback.output_removed (to_port_info port)] else []
      else
        if conf.input_removed then [callback.input_removed (to_port_info port)] else []
    else []

/-- A graph node: its input and output ports in stored order. -/
structure node where
  inputs : List port_info
  outputs : List port_info
  deriving DecidableEq, Repr

/-- The two partitions of `current_graph`, each a map from node id to node, given as its
entries in iteration order. -/
structure graph where
  physical_midi : List (Nat × node)
  software_midi : List (Nat × node)
  deriving DecidableEq, Repr

/-- The expression `Direction == SPA_DIRECTION_INPUT ? node.inputs : node.outputs`. -/
def direction_ports (Direction : spa_direction) (n : node) : List port_info :=
  if Direction = spa_direction.SPA_DIRECTION_INPUT then n.inputs else n.outputs

/-- The inner loop of `get_ports`: `ret.push_back(to_port_info<Direction>(p))` for each
port of one node. -/
def get_ports_push (ret : List port_information) : List port_info → List port_information
  | [] => ret
  | p :: rest => get_ports_push (ret ++ [to_port_info p]) rest

/-- The outer loop of `get_ports` over one partition. -/
def get_ports_partition (Direction : spa_direction) (ret : List port_information) :
    List (Nat × node) → List port_information
  | [] => ret
  | entry :: rest =>
    get_ports_partition Direction (get_ports_push ret (direction_ports Direction entry.2)) rest

/-- The function `get_ports<Direction>`, reading the graph of the context. -/
def get_ports (Direction : spa_direction) (g : graph) : List port_information :=
  let ret : List port_information := []
  let ret := get_ports_partition Direction ret g.physical_midi
  get_ports_partition Direction ret g.software_midi

/-- The number of `Direction` ports held by the nodes of one partition. -/
def count_ports (Direction : spa_direction) : List (Nat × node) → Nat
  | [] => 0
  | entry :: rest => (direction_ports Direction entry.2).length + count_ports Direction rest

/-- The lookup `midi.find(key)` in a node map; `none` is `midi.end()`. -/
def map_find (key : Nat) : List (Nat × node) → Option node
  | [] => none
  | entry :: rest => if entry.1 = key then some entry.2 else map_find key rest

/-- What `link_ports` does to the outside: the link request of the context, the lines
written to `std::cerr`, and the reports sent through `error<...>`. -/
inductive call where
  | link_ports (out_port in_port : Nat)
  | cerr_node_not_found (this_node : Nat)
  | cerr_node_has_no_ports (this_node : Nat)
  | error (t : error_type) (msg : Str)
  deriving DecidableEq, Repr

/-- The filter and context operations `link_ports` relies on, over a world `σ` that holds
the PipeWire connection and the graph. `synchronize_ports` returns the world and the
content of the node it was given as they are after the call; `link_ports` returns whether
the link it created is non-null. -/
structure api (σ : Type) where
  synchronize_node : σ → σ
  filter_node_id : σ → Nat
  software_midi : σ → List (Nat × node)
  synchronize_ports : σ → node → σ × node
  link_ports : σ → Nat → Nat → σ × Bool
  pw_loop_iterate : σ → σ

/-- The loop `for (int i = 0; i < n; i++) this->filter->synchronize_node();`. -/
def synchronize_node_loop {σ : Type} (w : api σ) : Nat → σ → σ
  | 0, x => x
  | n + 1, x => synchronize_node_loop w n (w.synchronize_node x)

/-- The world together with the log of what `link_ports` did so far. -/
structure helpers (σ : Type) where
  world : σ
  calls : List call

/-- Appends one entry to the log. -/
def helpers.log {σ : Type} (s : helpers σ) (c : call) : helpers σ :=
  { s with calls := s.calls ++ [c] }

/-- The overload `link_ports(self, const input_port&)`. -/
def link_ports_input {σ : Type} (w : api σ) (s : helpers σ) (in_port : port_information) :
    helpers σ × Bool :=
  let s1 := { s with world := synchronize_node_loop w 1000 s.world }
  let this_node := w.filter_node_id s1.world
  match map_find this_node (w.software_midi s1.world) with
  | none => (s1.log (call.cerr_node_not_found this_node), false)
  | some nd =>
    let r := w.synchronize_ports s1.world nd
    let s2 := { s1 with world := r.1 }
    match r.2.inputs with
    | [] => (s2.log (call.cerr_node_has_no_ports this_node), false)
    | p :: _ =>
      let link := w.link_ports s2.world in_port.port p.id
      let s3 := ({ s2 with world := link.1 }).log (call.link_ports in_port.port p.id)
      let s4 := { s3 with world := w.pw_loop_iterate s3.world }
      if ¬ link.2 then
        (s4.log (call.error error_type.invalid_parameter_error
            ("PipeWire: could not connect to port: ".toList ++ in_port.port_name
              ++ " -> ".toList ++ p.port_name)),
          false)
      else (s4, true)

/-- The overload `link_ports(self, const output_port&)`. -/
def link_ports_output {σ : Type} (w : api σ) (s : helpers σ) (out_port : port_information) :
    helpers σ × Bool :=
  let s1 := { s with world := synchronize_node_loop w 1000 s.world }
  let this_node := w.filter_node_id s1.world
  match map_find this_node (w.software_midi s1.world) with
  | none => (s1.log (call.cerr_node_not_found this_node), false)
  | some nd =>
    let r := w.synchronize_ports s1.world nd
    let s2 := { s1 with world := r.1 }
    match r.2.outputs with
    | [] => (s2.log (call.cerr_node_has_no_ports this_node), false)
    | p :: _ =>
      let link := w.link_ports s2.world p.id out_port.port
      let s3 := ({ s2 with world := link.1 }).log (call.link_ports p.id out_port.port)
      let s4 := { s3 with world := w.pw_loop_iterate s3.world }
      if ¬ link.2 then
        (s4.log (call.error error_type.invalid_parameter_error
            ("PipeWire: could not connect to port: ".toList ++ p.port_name
              ++ " -> ".toList ++ out_port.port_name)),
          false)
      else (s4, true)

/-- A physical server-side input port whose alias is colon-delimited and differs from its
raw port name. -/
def example_port : port_info :=
  { id := 42, format := "8 bit raw midi".toList, port_name := "capture_1:x".toList,
    port_alias := "Keystation:MIDI 1".toList, physical := true,
    direction := spa_direction.SPA_DIRECTION_INPUT }

/-- A non-physical server-side output port whose alias has no colon while its raw port
name has one. -/
def example_virtual_port : port_info :=
  { id := 43, format := "32 bit raw UMP midi".toList, port_name := "synth:out".toList,
    port_alias := "Synth".toList, physical := false,
    direction := spa_direction.SPA_DIRECTION_OUTPUT }

/-- An observer that tracks hardware ports only, with all four callbacks registered. -/
def hardware_observer : observer_configuration :=
  { track_hardware := true, track_virtual := false, track_any := false,
    input_added := true, input_removed := true, output_added := true,
    output_removed := true }

/-- An observer that tracks every port, with all four callbacks registered. -/
def any_observer : observer_configuration :=
  { track_hardware := false, track_virtual := false, track_any := true,
    input_added := true, input_removed := true, output_added := true,
    output_removed := true }

/-- An observer that tracks hardware ports but registered no callback at all. -/
def silent_observer : observer_configuration :=
  { track_hardware := true, track_virtual := false, track_any := false,
    input_added := false, input_removed := false, output_added := false,
    output_removed := false }

/-- A graph with one physical node holding `example_port` as input and one software node
holding `example_virtual_port` as output and as input. -/
def example_graph : graph :=
  { physical_midi := [(30, { inputs := [example_port], outputs := [] })]
    software_midi :=
      [(31, { inputs := [example_virtual_port], outputs := [example_virtual_port] })] }

/-- A PipeWire world for examples: the filter is node 31 of `example_graph`, port
synchronisation leaves the node as it is, and every link request succeeds. -/
def example_pw : api Unit where
  synchronize_node := fun _ => ()
  filter_node_id := fun _ => 31
  software_midi := fun _ => example_graph.software_midi
  synchronize_ports := fun _ nd => ((), nd)
  link_ports := fun _ _ _ => ((), true)
  pw_loop_iterate := fun _ => ()

/-- A remote port descriptor with port id 42. -/
def example_remote : port_information :=
  { client := 0, port := 42, manufacturer := [], device_name := "Keystation".toList,
    port_name := "capture_1:x".toList, display_name := "MIDI 1".toList }

/-- The world of `example_pw` when the server never created the filter's node: the filter
reports node id 99, which the graph does not hold. -/
def example_pw_missing_node : api Unit :=
  { example_pw with filter_node_id := fun _ => 99 }

/-- The helpers before any link attempt. -/
def example_helpers : helpers Unit :=
  { world := (), calls := [] }

/-- One graph notification handed by the context to the hooks that `add_callbacks`
installed: `on_port_added(port)` or `on_port_removed(port)`. -/
inductive port_event where
  | port_added (port : port_info)
  | port_removed (port : port_info)
  deriving DecidableEq, Repr

/-- The hook that one notification runs, and so the callbacks it invokes. -/
def dispatch (conf : observer_configuration) : port_event → List callback
  | port_event.port_added port => on_port_added conf port
  | port_event.port_removed port => on_port_removed conf port

/-- The callbacks invoked, in order, while a sequence of notifications is delivered to the
hooks; the hooks capture only `conf` and keep no state between notifications. -/
def deliver (conf : observer_configuration) : List port_event → List callback
  | [] => []
  | e :: rest => dispatch conf e ++ deliver conf rest

/-- An observer that tracks hardware ports and registered the two removed-callbacks but
neither added-callback. -/
def removal_only_observer : observer_configuration :=
  { track_hardware := true, track_virtual := false, track_any := false,
    input_added := false, input_removed := true, output_added := false,
    output_removed := true }

end pipewire

end libremidi

/-! # Theorems -/

namespace libremidi

namespace winmm

theorem open_port_display_loop_first (p port : port_information)
    (pre post : List port_information)
    (hpre : ∀ q ∈ pre, q.display_name ≠ p.display_name)
    (hport : port.display_name = p.display_name) :
    open_port_display_loop p (pre ++ port :: post) = some port := by
  induction pre with
  | nil => simp [open_port_display_loop, hport]
  | cons a pre ih =>
    have ha : ¬ p.display_name = a.display_name := fun h => hpre a (by simp) h.symm
    simp only [List.cons_append, open_port_display_loop, ha, if_false]
    exact ih (fun q hq => hpre q (by simp [hq]))

theorem open_port_display_loop_none (p : port_information) (L : List port_information)
    (h : ∀ q ∈ L, q.display_name ≠ p.display_name) :
    open_port_display_loop p L = none := by
  induction L with
  | nil => rfl
  | cons a L ih =>
    have ha : ¬ p.display_name = a.display_name := fun e => h a (by simp) e.symm
    simp only [open_port_display_loop, ha, if_false]
    exact ih (fun q hq => h q (by simp [hq]))

theorem open_port_raw_loop_first (p port : port_information)
    (pre post : List port_information)
    (hpre : ∀ q ∈ pre, q.port_name ≠ p.port_name)
    (hport : port.port_name = p.port_name) :
    open_port_raw_loop p (pre ++ port :: post) = some port := by
  induction pre with
  | nil => simp [open_port_raw_loop, hport]
  | cons a pre ih =>
    have ha : ¬ p.port_name = a.port_name := fun h => hpre a (by simp) h.symm
    simp only [List.cons_append, open_port_raw_loop, ha, if_false]
    exact ih (fun q hq => hpre q (by simp [hq]))

theorem open_port_raw_loop_none (p : port_information) (L : List port_information)
    (h : ∀ q ∈ L, q.port_name ≠ p.port_name) :
    open_port_raw_loop p L = none := by
  induction L with
  | nil => rfl
  | cons a L ih =>
    have ha : ¬ p.port_name = a.port_name := fun e => h a (by simp) e.symm
    simp only [open_port_raw_loop, ha, if_false]
    exact ih (fun q hq => h q (by simp [hq]))

theorem opened_ports_append (a b : List call) :
    opened_ports (a ++ b) = opened_ports a ++ opened_ports b := by
  induction a with
  | nil => rfl
  | cons c a ih => cases c <;> simp [opened_ports, ih]

theorem opened_ports_do_open {σ : Type} (w : api σ) (s : midi_out_winmm σ) (n : Nat) :
    opened_ports (do_open w s n).1.calls = opened_ports s.calls ++ [n] := by
  by_cases h : (w.midiOutOpen s.world s.outHandle n).2.1 = MMSYSERR_NOERROR
  · simp [do_open, h, midi_out_winmm.log, opened_ports_append, opened_ports]
  · simp [do_open, h, midi_out_winmm.log, opened_ports_append, opened_ports]

/-- C1: `open_port` opens the native device of the first enumerated port whose
display name equals the requested one; when no display name matches, that of the first
port whose raw port name equals the requested one; when nothing matches it reports the
invalid-parameter error "port not found", returns `invalid_argument` and calls
`midiOutOpen` not at all. The device number handed to `midiOutOpen` is the port's handle
converted to `unsigned int`, which is the handle itself whenever it is below `2 ^ 32`. -/
theorem open_port_resolves_display_then_raw {σ : Type} (w : api σ) (s : midi_out_winmm σ)
    (p : port_information) :
    (∀ pre port post, w.get_output_ports s.world = pre ++ port :: post →
      (∀ q ∈ pre, q.display_name ≠ p.display_name) → port.display_name = p.display_name →
      open_port w s p = do_open w s (port.port % 2 ^ 32) ∧
      opened_ports (open_port w s p).1.calls
        = opened_ports s.calls ++ [port.port % 2 ^ 32] ∧
      (port.port < 2 ^ 32 →
        opened_ports (open_port w s p).1.calls = opened_ports s.calls ++ [port.port])) ∧
    (∀ pre port post, w.get_output_ports s.world = pre ++ port :: post →
      (∀ q ∈ w.get_output_ports s.world, q.display_name ≠ p.display_name) →
      (∀ q ∈ pre, q.port_name ≠ p.port_name) → port.port_name = p.port_name →
      open_port w s p = do_open w s (port.port % 2 ^ 32) ∧
      opened_ports (open_port w s p).1.calls
        = opened_ports s.calls ++ [port.port % 2 ^ 32] ∧
      (port.port < 2 ^ 32 →
        opened_ports (open_port w s p).1.calls = opened_ports s.calls ++ [port.port])) ∧
    ((∀ q ∈ w.get_output_ports s.world,
        q.display_name ≠ p.display_name ∧ q.port_name ≠ p.port_name) →
      open_port w s p =
        (s.log (call.error error_type.invalid_parameter_error
          ("midi_out_winmm::open_port: port not found: ".toList ++ p.port_name)),
         error_code.generic errc.invalid_argument) ∧
      opened_ports (open_port w s p).1.calls = opened_ports s.calls) := by
  refine ⟨?_, ?_, ?_⟩
  · intro pre port post hL hpre hport
    have h1 : open_port w s p = do_open w s (port.port % 2 ^ 32) := by
      simp only [open_port, hL, open_port_display_loop_first p port pre post hpre hport,
        to_unsigned_int]
    have h2 : opened_ports (open_port w s p).1.calls
        = opened_ports s.calls ++ [port.port % 2 ^ 32] := by
      rw [h1]
      exact opened_ports_do_open w s _
    refine ⟨h1, h2, ?_⟩
    intro hlt
    rw [h2, Nat.mod_eq_of_lt hlt]
  · intro pre port post hL hnone hpre hport
    have h0 : open_port_display_loop p (pre ++ port :: post) = none :=
      open_port_display_loop_none p _ (hL ▸ hnone)
    have h1 : open_port w s p = do_open w s (port.port % 2 ^ 32) := by
      simp only [open_port, hL, h0, open_port_raw_loop_first p port pre post hpre hport,
        to_unsigned_int]
    have h2 : opened_ports (open_port w s p).1.calls
        = opened_ports s.calls ++ [port.port % 2 ^ 32] := by
      rw [h1]
      exact opened_ports_do_open w s _
    refine ⟨h1, h2, ?_⟩
    intro hlt
    rw [h2, Nat.mod_eq_of_lt hlt]
  · intro hnone
    have h0 := open_port_display_loop_none p _ (fun q hq => (hnone q hq).1)
    have h1 := open_port_raw_loop_none p _ (fun q hq => (hnone q hq).2)
    have h2 : open_port w s p =
        (s.log (call.error error_type.invalid_parameter_error
          ("midi_out_winmm::open_port: port not found: ".toList ++ p.port_name)),
         error_code.generic errc.invalid_argument) := by
      simp only [open_port, h0, h1]
    refine ⟨h2, ?_⟩
    rw [h2]
    simp [midi_out_winmm.log, opened_ports_append, opened_ports]

/-- C1, on the example worlds: a request named like the second port opens device 9, a
request that only shares the raw name of the second port opens device 9 too, an unknown
request opens nothing, and a matching port whose handle is `2 ^ 32 + 5` opens the device
that handle converts to. -/
theorem open_port_resolves_display_then_raw_witness :
    (opened_ports (open_port example_api closed_driver request_keys_2).1.calls
        = opened_ports closed_driver.calls ++ [9]) ∧
    (opened_ports (open_port example_api closed_driver request_raw_b).1.calls
        = opened_ports closed_driver.calls ++ [9]) ∧
    (open_port example_api closed_driver request_unknown).2
        = error_code.generic errc.invalid_argument ∧
    opened_ports (open_port example_api closed_driver request_unknown).1.calls
        = opened_ports closed_driver.calls ∧
    opened_ports (open_port wide_handle_api closed_driver request_keys_2).1.calls
        = opened_ports closed_driver.calls ++ [(2 ^ 32 + 5) % 2 ^ 32] :=
  ⟨((open_port_resolves_display_then_raw example_api closed_driver request_keys_2).1
      [{ client := 0, port := 4, manufacturer := [], device_name := [],
         port_name := "raw A".toList, display_name := "KEYS 1".toList }]
      { client := 0, port := 9, manufacturer := [], device_name := [],
        port_name := "raw B".toList, display_name := "KEYS 2".toList }
      [] rfl (by decide) rfl).2.2 (by decide),
   ((open_port_resolves_display_then_raw example_api closed_driver request_raw_b).2.1
      [{ client := 0, port := 4, manufacturer := [], device_name := [],
         port_name := "raw A".toList, display_name := "KEYS 1".toList }]
      { client := 0, port := 9, manufacturer := [], device_name := [],
        port_name := "raw B".toList, display_name := "KEYS 2".toList }
      [] rfl (by decide) (by decide) rfl).2.2 (by decide),
   congrArg Prod.snd
     ((open_port_resolves_display_then_raw example_api closed_driver request_unknown).2.2
        (by decide)).1,
   ((open_port_resolves_display_then_raw example_api closed_driver request_unknown).2.2
        (by decide)).2,
   ((open_port_resolves_display_then_raw wide_handle_api closed_driver request_keys_2).1
      []
      { client := 0, port := 2 ^ 32 + 5, manufacturer := [], device_name := [],
        port_name := "raw B".toList, display_name := "KEYS 2".toList }
      [] rfl (by simp) rfl).2.1⟩

theorem unprepare_loop_spec {σ : Type} (w : api σ) (size fuel : Nat)
    (s : midi_out_winmm σ) :
    ∃ extra, (unprepare_loop w size fuel s).1.calls = s.calls ++ extra ∧
      extra.filter call.is_write = [] ∧
      (unprepare_loop w size fuel s).1.buffer = s.buffer ∧
      (unprepare_loop w size fuel s).1.outHandle = s.outHandle ∧
      (unprepare_loop w size fuel s).1.connected_ = s.connected_ := by
  induction fuel generalizing s with
  | zero => exact ⟨[], by simp [unprepare_loop]⟩
  | succ fuel ih =>
    by_cases h : MIDIERR_STILLPLAYING
        = (w.midiOutUnprepareHeader s.world s.outHandle s.buffer size).2
    · simp only [unprepare_loop, h, if_true]
      obtain ⟨extra, h1, h2, h3, h4, h5⟩ := ih
        (({ ({ s with world :=
                (w.midiOutUnprepareHeader s.world s.outHandle s.buffer size).1 }).log
              (call.midiOutUnprepareHeader s.outHandle s.buffer size) with
            world := w.Sleep (({ s with world :=
                (w.midiOutUnprepareHeader s.world s.outHandle s.buffer size).1 }).log
              (call.midiOutUnprepareHeader s.outHandle s.buffer size)).world 1 }).log
          (call.Sleep 1))
      refine ⟨call.midiOutUnprepareHeader s.outHandle s.buffer size :: call.Sleep 1 :: extra,
        ?_, ?_, ?_, ?_, ?_⟩
      · rw [h1]; simp [midi_out_winmm.log]
      · simp [List.filter_cons, call.is_write, h2]
      · rw [h3]; rfl
      · rw [h4]; rfl
      · rw [h5]; rfl
    · simp only [unprepare_loop, h, if_false]
      exact ⟨[call.midiOutUnprepareHeader s.outHandle s.buffer size],
        by simp [midi_out_winmm.log, call.is_write]⟩

/-- C2, as amended: on a connected driver, a message starting with 0xF0 is copied to the
buffer and its native writes are `midiOutPrepareHeader` over exactly the message bytes,
followed by `midiOutLongMsg` over the same bytes when the preparation succeeded, and no
`midiOutShortMsg`, whatever the length; the header's `dwBufferLength` is the message
length converted to the 32-bit `DWORD`. A message not starting with 0xF0 and longer than
3 bytes gets the warning, fails with `message_size` and writes nothing. On a driver that
is not connected every message returns `not_connected` and leaves the driver as it was. -/
theorem send_message_connected_paths {σ : Type} (w : api σ) (fuel : Nat)
    (s : midi_out_winmm σ) (message : List Nat) :
    (s.connected_ = true → message.head? = some 0xF0 →
      (send_message w fuel s message).1.buffer = message ∧
      ((send_message w fuel s message).1.calls.drop s.calls.length).filter call.is_write
        = call.midiOutPrepareHeader s.outHandle message (message.length % 2 ^ 32) ::
          (if (w.midiOutPrepareHeader s.world s.outHandle message
                (message.length % 2 ^ 32)).2 = MMSYSERR_NOERROR
           then [call.midiOutLongMsg s.outHandle message (message.length % 2 ^ 32)]
           else [])) ∧
    (s.connected_ = true → message.head? ≠ some 0xF0 → 3 < message.length →
      send_message w fuel s message =
        (s.log (call.warning
          "midi_out_winmm::send_message: message size is greater than 3 bytes (and not sysex)!".toList),
         some (error_code.generic errc.message_size)) ∧
      ((send_message w fuel s message).1.calls.drop s.calls.length).filter call.is_write
        = []) ∧
    (s.connected_ = false →
      send_message w fuel s message = (s, some (error_code.generic errc.not_connected))) := by
  have hD : message.length % 2 ^ 32 = to_DWORD message.length := rfl
  simp only [hD]
  refine ⟨?_, ?_, ?_⟩
  · intro hc hd
    have hne : message.length ≠ 0 := by
      cases message with
      | nil => simp at hd
      | cons a m => simp
    by_cases hp : (w.midiOutPrepareHeader s.world s.outHandle message
        (to_DWORD message.length)).2 = MMSYSERR_NOERROR
    · by_cases hl : (w.midiOutLongMsg
          (w.midiOutPrepareHeader s.world s.outHandle message (to_DWORD message.length)).1
          s.outHandle message (to_DWORD message.length)).2 = MMSYSERR_NOERROR
      · obtain ⟨extra, h1, h2, h3, _, _⟩ := unprepare_loop_spec w (to_DWORD message.length)
          fuel
          (({ ({ ({ s with buffer := message } : midi_out_winmm σ) with
                  world := (w.midiOutPrepareHeader s.world s.outHandle message
                    (to_DWORD message.length)).1 }).log
                (call.midiOutPrepareHeader s.outHandle message (to_DWORD message.length)) with
              world := (w.midiOutLongMsg
                (w.midiOutPrepareHeader s.world s.outHandle message
                  (to_DWORD message.length)).1
                s.outHandle message (to_DWORD message.length)).1 }).log
            (call.midiOutLongMsg s.outHandle message (to_DWORD message.length)))
        simp only [send_message, hc, hne, hd, hp, hl, midi_out_winmm.log, not_true_eq_false,
          if_false, if_true, ne_eq] at h1 h3 ⊢
        refine ⟨h3, ?_⟩
        rw [h1]
        simp [call.is_write, h2]
      · simp [send_message, hc, hne, hd, hp, hl, midi_out_winmm.log, call.is_write]
    · simp [send_message, hc, hne, hd, hp, midi_out_winmm.log, call.is_write]
  · intro hc hd hlen
    have hne : message.length ≠ 0 := by omega
    have h : send_message w fuel s message =
        (s.log (call.warning
          "midi_out_winmm::send_message: message size is greater than 3 bytes (and not sysex)!".toList),
         some (error_code.generic errc.message_size)) := by
      simp [send_message, hc, hne, hd, hlen]
    refine ⟨h, ?_⟩
    rw [h]
    simp [midi_out_winmm.log, call.is_write]
  · intro hc
    simp [send_message, hc]

/-- C2, on the example world: the connected driver sends a three-byte SysEx through
prepare and long message and refuses a four-byte channel message with `message_size`;
the driver without a port answers a SysEx with `not_connected`. -/
theorem send_message_connected_paths_witness :
    ((send_message example_api 1 open_driver [0xF0, 0x01, 0xF7]).1.buffer
        = [0xF0, 0x01, 0xF7] ∧
      ((send_message example_api 1 open_driver [0xF0, 0x01, 0xF7]).1.calls.drop
          open_driver.calls.length).filter call.is_write
        = call.midiOutPrepareHeader open_driver.outHandle [0xF0, 0x01, 0xF7]
            ([0xF0, 0x01, 0xF7].length % 2 ^ 32) ::
          (if (example_api.midiOutPrepareHeader open_driver.world open_driver.outHandle
                [0xF0, 0x01, 0xF7] ([0xF0, 0x01, 0xF7].length % 2 ^ 32)).2
                  = MMSYSERR_NOERROR
           then [call.midiOutLongMsg open_driver.outHandle [0xF0, 0x01, 0xF7]
              ([0xF0, 0x01, 0xF7].length % 2 ^ 32)] else [])) ∧
    (send_message example_api 1 open_driver [0x90, 0x3C, 0x7F, 0x00] =
        (open_driver.log (call.warning
          "midi_out_winmm::send_message: message size is greater than 3 bytes (and not sysex)!".toList),
         some (error_code.generic errc.message_size)) ∧
      ((send_message example_api 1 open_driver [0x90, 0x3C, 0x7F, 0x00]).1.calls.drop
          open_driver.calls.length).filter call.is_write = []) ∧
    send_message example_api 1 closed_driver [0xF0, 0x01, 0xF7]
      = (closed_driver, some (error_code.generic errc.not_connected)) :=
  ⟨(send_message_connected_paths example_api 1 open_driver [0xF0, 0x01, 0xF7]).1 rfl rfl,
   (send_message_connected_paths example_api 1 open_driver [0x90, 0x3C, 0x7F, 0x00]).2.1
      rfl (by decide) (by decide),
   (send_message_connected_paths example_api 1 closed_driver [0xF0, 0x01, 0xF7]).2.2 rfl⟩

/-- C2 fails as stated: on a driver that is not connected a four-byte channel message
returns `not_connected`, not `message_size`, and a SysEx message reaches no native call;
and on a connected driver whose `midiOutPrepareHeader` fails, `midiOutLongMsg` is not
called. -/
theorem send_message_paths_counterexample :
    (send_message example_api 1 closed_driver [0x90, 0x3C, 0x7F, 0x00]).2
        = some (error_code.generic errc.not_connected) ∧
    (send_message example_api 1 closed_driver [0x90, 0x3C, 0x7F, 0x00]).2
        ≠ some (error_code.generic errc.message_size) ∧
    (send_message example_api 1 closed_driver [0xF0, 0x01, 0xF7]).1.calls = [] ∧
    (send_message example_api 1 closed_driver [0xF0, 0x01, 0xF7]).2
        = some (error_code.generic errc.not_connected) ∧
    (send_message failing_prepare_api 1 open_driver [0xF0, 0x01, 0xF7]).1.calls
        = [call.midiOutPrepareHeader (some 7) [0xF0, 0x01, 0xF7] 3,
           call.error error_type.driver_error
             "midi_out_winmm::send_message: error preparing sysex header.".toList] := by
  refine ⟨by decide, by decide, by decide, by decide, by decide⟩

/-- C3, as amended: `send_message` with an empty byte sequence never makes a native write
and never succeeds; on a connected driver it reports the warning and returns
`invalid_argument`, on a driver that is not connected it returns `not_connected` and
leaves the driver as it was. -/
theorem send_message_empty {σ : Type} (w : api σ) (fuel : Nat) (s : midi_out_winmm σ) :
    send_message w fuel s [] =
      (if s.connected_ = true then
        (s.log (call.warning
            "midi_out_winmm::send_message: message argument is empty!".toList),
          some (error_code.generic errc.invalid_argument))
       else (s, some (error_code.generic errc.not_connected))) ∧
    ((send_message w fuel s []).1.calls.drop s.calls.length).filter call.is_write = [] ∧
    (send_message w fuel s []).2 ≠ some error_code.success ∧
    (send_message w fuel s []).2 ≠ none := by
  by_cases hc : s.connected_ = true
  · simp [send_message, hc, midi_out_winmm.log, call.is_write]
  · simp [send_message, hc]

/-- C3 fails as stated: on a driver with no open port the empty message returns
`not_connected`, not `invalid_argument`. -/
theorem send_message_empty_counterexample :
    (send_message example_api 1 closed_driver []).2
        = some (error_code.generic errc.not_connected) ∧
    (send_message example_api 1 closed_driver []).2
        ≠ some (error_code.generic errc.invalid_argument) := by
  refine ⟨by decide, by decide⟩

end winmm

namespace alsa_raw_ump

/-- C10, at the failing input: on a freshly constructed driver (null `midiport_`)
`send_ump` reports the invalid-use error, then still calls `snd.ump.write` with the null
handle, and returns success when that write reports no error. -/
theorem send_ump_without_port_still_writes :
    (send_ump example_snd fresh_driver [0x20903C7F] 1).2 = error_code.success ∧
    (send_ump example_snd fresh_driver [0x20903C7F] 1).1.calls
      = [call.error error_type.invalid_use_error
           "midi_out_alsa_raw::send_message: trying to send a message without an open port.".toList,
         call.ump_write none [0x20903C7F] 4] := by
  refine ⟨by decide, by decide⟩

end alsa_raw_ump

/-- C4: for every state of the WinMM driver and of the ALSA raw UMP driver, a
`close_port` right after a `close_port` returns success, makes no native close call
(`midiOutClose` / `snd.ump.close`) and leaves the state of the first call untouched; in
that state the native handle is null and the driver is not connected: the WinMM flag
`connected_` is false, and the ALSA raw UMP driver, whose test for an open port is its
handle `midiport_`, answers any `send_ump` with its "without an open port" report. -/
theorem close_port_twice {σ τ : Type} (w : winmm.api σ) (s : winmm.midi_out_winmm σ)
    (snd : alsa_raw_ump.libasound τ) (t : alsa_raw_ump.midi_out_impl τ) :
    (winmm.close_port w (winmm.close_port w s).1
        = ((winmm.close_port w s).1, error_code.success) ∧
      ((winmm.close_port w (winmm.close_port w s).1).1.calls.drop
          (winmm.close_port w s).1.calls.length).filter winmm.call.is_close = [] ∧
      (winmm.close_port w s).1.outHandle = none ∧
      (winmm.close_port w s).1.connected_ = false) ∧
    (alsa_raw_ump.close_port snd (alsa_raw_ump.close_port snd t).1
        = ((alsa_raw_ump.close_port snd t).1, error_code.success) ∧
      ((alsa_raw_ump.close_port snd (alsa_raw_ump.close_port snd t).1).1.calls.drop
          (alsa_raw_ump.close_port snd t).1.calls.length).filter
            alsa_raw_ump.call.is_close = [] ∧
      (alsa_raw_ump.close_port snd t).1.midiport_ = none ∧
      (∀ ump_stream count, ∃ rest,
        (alsa_raw_ump.send_ump snd (alsa_raw_ump.close_port snd t).1 ump_stream count).1.calls
          = (alsa_raw_ump.close_port snd t).1.calls ++
            alsa_raw_ump.call.error error_type.invalid_use_error
              "midi_out_alsa_raw::send_message: trying to send a message without an open port.".toList
              :: rest)) := by
  have hw : winmm.close_port w (winmm.close_port w s).1
      = ((winmm.close_port w s).1, error_code.success) := by
    simp [winmm.close_port]
  have ha : alsa_raw_ump.close_port snd (alsa_raw_ump.close_port snd t).1
      = ((alsa_raw_ump.close_port snd t).1, error_code.success) := by
    simp [alsa_raw_ump.close_port]
  refine ⟨⟨hw, ?_, ?_, ?_⟩, ⟨ha, ?_, ?_, ?_⟩⟩
  · rw [hw]
    simp
  · simp [winmm.close_port]
  · simp [winmm.close_port]
  · rw [ha]
    simp
  · simp [alsa_raw_ump.close_port]
  · intro ump_stream count
    have hn : (alsa_raw_ump.close_port snd t).1.midiport_ = none := by
      simp [alsa_raw_ump.close_port]
    by_cases hr : (snd.ump_write (alsa_raw_ump.close_port snd t).1.world none ump_stream
        (count * 4 % 2 ^ 64)).2 < 0
    · refine ⟨[alsa_raw_ump.call.ump_write none ump_stream (count * 4 % 2 ^ 64),
        alsa_raw_ump.call.error error_type.driver_error
          "midi_out_alsa_raw::send_message: cannot write message.".toList], ?_⟩
      simp only [alsa_raw_ump.send_ump, alsa_raw_ump.write, hn, Option.isNone_none, if_true,
        alsa_raw_ump.midi_out_impl.log, hr, List.append_assoc, List.singleton_append]
      rfl
    · refine ⟨[alsa_raw_ump.call.ump_write none ump_stream (count * 4 % 2 ^ 64)], ?_⟩
      simp only [alsa_raw_ump.send_ump, alsa_raw_ump.write, hn, Option.isNone_none, if_true,
        alsa_raw_ump.midi_out_impl.log, hr, if_false, List.append_assoc,
        List.singleton_append]

namespace pipewire

theorem find_char_append (c : Char) (before after : Str) (h : c ∉ before) :
    find_char c (before ++ c :: after) = some before.length := by
  induction before with
  | nil => simp [find_char]
  | cons a before ih =>
    have ha : a ≠ c := fun e => h (by simp [e])
    have hb : c ∉ before := fun e => h (by simp [e])
    simp [find_char, ha, ih hb]

theorem find_char_none (c : Char) (s : Str) (h : c ∉ s) : find_char c s = none := by
  induction s with
  | nil => rfl
  | cons a s ih =>
    have ha : a ≠ c := fun e => h (by simp [e])
    have hb : c ∉ s := fun e => h (by simp [e])
    simp [find_char, ha, ih hb]

theorem to_port_info_split (port : port_info) :
    (∀ before after, port.port_alias = before ++ ':' :: after → ':' ∉ before →
      (to_port_info port).device_name = before ∧
      (to_port_info port).display_name = after) ∧
    (':' ∉ port.port_alias →
      (to_port_info port).device_name = [] ∧
      (to_port_info port).display_name = port.port_alias) := by
  constructor
  · intro before after hal hb
    simp [to_port_info, hal, find_char_append ':' before after hb, substr, substr_from]
  · intro hn
    simp [to_port_info, find_char_none ':' _ hn]

theorem find_str_ne_none_iff (pat s : Str) : find_str pat s ≠ none ↔ pat <:+: s := by
  induction s with
  | nil =>
    by_cases h : pat.isPrefixOf [] = true
    · have h2 : pat <+: [] := List.isPrefixOf_iff_prefix.mp h
      simp [find_str, h, h2.isInfix]
    · have h2 : ¬ pat <+: [] := fun e => h (List.isPrefixOf_iff_prefix.mpr e)
      have h3 : ¬ pat <:+: [] := by
        intro e
        apply h2
        rw [List.infix_nil] at e
        rw [e]
      have hf : find_str pat [] = none := by simp [find_str, h]
      simp [hf, h3]
  | cons a s ih =>
    by_cases h : pat.isPrefixOf (a :: s) = true
    · have h2 : pat <+: a :: s := List.isPrefixOf_iff_prefix.mp h
      simp [find_str, h, h2.isInfix]
    · have h2 : ¬ pat <+: a :: s := fun e => h (List.isPrefixOf_iff_prefix.mpr e)
      have hf : find_str pat (a :: s) = (find_str pat s).map (· + 1) := by
        simp [find_str, h]
      rw [hf, List.infix_cons_iff]
      simp only [ne_eq, Option.map_eq_none', h2, false_or]
      exact ih

/-- C5, as amended: `to_port_info` splits the port's alias, not its raw name. When the
alias is `before ++ ":" ++ after` with no colon in `before`, the descriptor has
`device_name = before` and `display_name = after`; when the alias has no colon,
`device_name` is empty and `display_name` is the alias. The descriptor's `port_name` is
the port's raw name, and its `port` is the port's id, in every case. -/
theorem to_port_info_splits_alias (port : port_info) :
    (∀ before after, port.port_alias = before ++ ':' :: after → ':' ∉ before →
      (to_port_info port).device_name = before ∧
      (to_port_info port).display_name = after) ∧
    (':' ∉ port.port_alias →
      (to_port_info port).device_name = [] ∧
      (to_port_info port).display_name = port.port_alias) ∧
    (to_port_info port).port_name = port.port_name ∧
    (to_port_info port).port = port.id ∧
    (to_port_info port).client = 0 ∧
    (to_port_info port).manufacturer = [] :=
  ⟨(to_port_info_split port).1, (to_port_info_split port).2, rfl, rfl, rfl, rfl⟩

/-- C5, on two ports: the alias "Keystation:MIDI 1" gives device "Keystation" and display
name "MIDI 1"; the colon-free alias "Synth" gives an empty device and display name
"Synth". -/
theorem to_port_info_splits_alias_witness :
    ((to_port_info example_port).device_name = "Keystation".toList ∧
      (to_port_info example_port).display_name = "MIDI 1".toList) ∧
    ((to_port_info example_virtual_port).device_name = [] ∧
      (to_port_info example_virtual_port).display_name
        = example_virtual_port.port_alias) :=
  ⟨(to_port_info_splits_alias example_port).1 "Keystation".toList "MIDI 1".toList rfl
      (by decide),
   (to_port_info_splits_alias example_virtual_port).2.1 (by decide)⟩

/-- C5 fails as stated: a port whose raw name "synth:out" has a colon but whose alias
"Synth" has none gets an empty device name and the display name "Synth", not "synth" and
"out"; a port whose raw name is "capture_1:x" gets the display name "MIDI 1" from its
alias, which is neither "x" nor the descriptor's `port_name`. -/
theorem to_port_info_raw_name_counterexample :
    (to_port_info example_virtual_port).port_name = "synth:out".toList ∧
    (to_port_info example_virtual_port).device_name = [] ∧
    (to_port_info example_virtual_port).display_name = "Synth".toList ∧
    (to_port_info example_virtual_port).device_name ≠ "synth".toList ∧
    (to_port_info example_virtual_port).display_name ≠ "out".toList ∧
    (to_port_info example_port).port_name = "capture_1:x".toList ∧
    (to_port_info example_port).display_name = "MIDI 1".toList ∧
    (to_port_info example_port).display_name ≠ "x".toList := by
  refine ⟨by decide, by decide, by decide, by decide, by decide, by decide, by decide,
    by decide⟩

theorem find_str_eq_none_iff (pat s : Str) : find_str pat s = none ↔ ¬ pat <:+: s := by
  rw [← find_str_ne_none_iff]
  simp

theorem midi_chars : "midi".toList = ['m', 'i', 'd', 'i'] := rfl

/-- C6: with the added-callbacks registered, the port-added hook invokes a callback exactly
when the port's format contains "midi" and the filter lets it through (`track_any`, or a
physical port with `track_hardware`, or a non-physical port with `track_virtual`). With
`track_any = false`, `track_hardware = true`, `track_virtual = false` a non-physical port
invokes nothing; with `track_any = true` every port whose format contains "midi" invokes
the added callback of its (inverted) direction, once, whatever the other two flags. -/
theorem on_port_added_filter (conf : observer_configuration) (port : port_info)
    (hin : conf.input_added = true) (hout : conf.output_added = true) :
    (on_port_added conf port ≠ [] ↔
      ("midi".toList <:+: port.format ∧
        (conf.track_any = true ∨ (port.physical = true ∧ conf.track_hardware = true) ∨
          (port.physical = false ∧ conf.track_virtual = true)))) ∧
    (conf.track_any = false → conf.track_hardware = true → conf.track_virtual = false →
      port.physical = false → on_port_added conf port = []) ∧
    (conf.track_any = true → "midi".toList <:+: port.format →
      on_port_added conf port =
        [if port.direction = spa_direction.SPA_DIRECTION_INPUT
         then callback.output_added (to_port_info port)
         else callback.input_added (to_port_info port)]) := by
  refine ⟨?_, ?_, ?_⟩
  · by_cases hf : "midi".toList <:+: port.format
    · have hf2 : ¬ find_str "midi".toList port.format = none :=
        (find_str_ne_none_iff _ _).mpr hf
      rw [midi_chars] at hf hf2
      cases hd : port.direction <;> cases ha : conf.track_any <;>
        cases hp : port.physical <;> cases hh : conf.track_hardware <;>
        cases hv : conf.track_virtual <;>
        simp [on_port_added, hf, hf2, hd, ha, hp, hh, hv, hin, hout]
    · have hf2 : find_str "midi".toList port.format = none :=
        (find_str_eq_none_iff _ _).mpr hf
      rw [midi_chars] at hf hf2
      simp [on_port_added, hf, hf2]
  · intro ha hh hv hp
    simp [on_port_added, ha, hh, hv, hp]
  · intro ha hf
    have hf2 : ¬ find_str "midi".toList port.format = none :=
      (find_str_ne_none_iff _ _).mpr hf
    rw [midi_chars] at hf2
    cases hd : port.direction <;> simp [on_port_added, hf2, hd, ha, hin, hout]

/-- C6, on examples: the hardware-only observer stays silent for a non-physical MIDI port,
and the track-any observer reports the physical input port through `output_added`. -/
theorem on_port_added_filter_witness :
    on_port_added hardware_observer example_virtual_port = [] ∧
    on_port_added any_observer example_port =
      [if example_port.direction = spa_direction.SPA_DIRECTION_INPUT
       then callback.output_added (to_port_info example_port)
       else callback.input_added (to_port_info example_port)] :=
  ⟨(on_port_added_filter hardware_observer example_virtual_port rfl rfl).2.1 rfl rfl rfl rfl,
   (on_port_added_filter any_observer example_port rfl rfl).2.2 rfl (by decide)⟩

/-- C7, as amended: for a port whose format contains "midi" and that the filter accepts, a
server-side input port makes the added hook call `output_added` exactly once, and nothing
else, when that slot is registered, and a server-side output port makes it call
`input_added` exactly once, and nothing else, when that slot is registered; with the slot
empty the hook calls nothing. The removed hook does the same with `output_removed` and
`input_removed`. The descriptor passed is the one `to_port_info` builds, whose display
name is the part of the port's alias after its first colon (the whole alias when it has
none). -/
theorem port_hooks_invert_direction (conf : observer_configuration) (port : port_info)
    (hfmt : "midi".toList <:+: port.format)
    (hacc : conf.track_any = true ∨ (port.physical = true ∧ conf.track_hardware = true) ∨
      (port.physical = false ∧ conf.track_virtual = true)) :
    (port.direction = spa_direction.SPA_DIRECTION_INPUT →
      on_port_added conf port =
        (if conf.output_added = true then [callback.output_added (to_port_info port)]
         else []) ∧
      on_port_removed conf port =
        (if conf.output_removed = true then [callback.output_removed (to_port_info port)]
         else [])) ∧
    (port.direction = spa_direction.SPA_DIRECTION_OUTPUT →
      on_port_added conf port =
        (if conf.input_added = true then [callback.input_added (to_port_info port)]
         else []) ∧
      on_port_removed conf port =
        (if conf.input_removed = true then [callback.input_removed (to_port_info port)]
         else [])) ∧
    (∀ before after, port.port_alias = before ++ ':' :: after → ':' ∉ before →
      (to_port_info port).display_name = after) ∧
    (':' ∉ port.port_alias → (to_port_info port).display_name = port.port_alias) := by
  have hf2 : ¬ find_str "midi".toList port.format = none :=
    (find_str_ne_none_iff _ _).mpr hfmt
  have hu : (conf.track_any || (port.physical && conf.track_hardware)
      || (!port.physical && conf.track_virtual)) = true := by
    rcases hacc with h | ⟨h1, h2⟩ | ⟨h1, h2⟩ <;> simp [*]
  refine ⟨?_, ?_, ?_, ?_⟩
  · intro hd
    simp only [on_port_added, on_port_removed, hf2, hu, hd, if_true, if_false]
    simp
  · intro hd
    simp only [on_port_added, on_port_removed, hf2, hu, hd, if_true, if_false]
    simp
  · intro before after hal hb
    exact ((to_port_info_split port).1 before after hal hb).2
  · intro hn
    exact ((to_port_info_split port).2 hn).2

/-- C7, on the example: a physical server-side input port seen by the hardware observer
gives one `output_added` and, on removal, one `output_removed`. -/
theorem port_hooks_invert_direction_witness :
    on_port_added hardware_observer example_port =
      (if hardware_observer.output_added = true
       then [callback.output_added (to_port_info example_port)] else []) ∧
    on_port_removed hardware_observer example_port =
      (if hardware_observer.output_removed = true
       then [callback.output_removed (to_port_info example_port)] else []) :=
  (port_hooks_invert_direction hardware_observer example_port (by decide)
    (Or.inr (Or.inl ⟨rfl, rfl⟩))).1 rfl

/-- C7 fails as stated: for the physical MIDI input port, accepted by an observer that
tracks hardware but registered no callback, neither hook calls anything; and the display
name handed over by a registered observer, "MIDI 1", comes from the alias and not from
the raw port name "capture_1:x". -/
theorem port_hooks_counterexample :
    on_port_added silent_observer example_port = [] ∧
    on_port_removed silent_observer example_port = [] ∧
    on_port_added hardware_observer example_port =
      [callback.output_added
        { client := 0, port := 42, manufacturer := [], device_name := "Keystation".toList,
          port_name := "capture_1:x".toList, display_name := "MIDI 1".toList }] := by
  refine ⟨by decide, by decide, by decide⟩

theorem get_ports_push_eq (ret : List port_information) (ps : List port_info) :
    get_ports_push ret ps = ret ++ ps.map to_port_info := by
  induction ps generalizing ret with
  | nil => simp [get_ports_push]
  | cons p ps ih => simp [get_ports_push, ih]

theorem get_ports_partition_eq (D : spa_direction) (ret : List port_information)
    (m : List (Nat × node)) :
    get_ports_partition D ret m =
      ret ++ m.flatMap (fun e => (direction_ports D e.2).map to_port_info) := by
  induction m generalizing ret with
  | nil => simp [get_ports_partition]
  | cons e m ih => simp [get_ports_partition, ih, get_ports_push_eq]

theorem length_flatMap_ports (D : spa_direction) (m : List (Nat × node)) :
    (m.flatMap (fun e => (direction_ports D e.2).map to_port_info)).length
      = count_ports D m := by
  induction m with
  | nil => rfl
  | cons e m ih => simp [count_ports, ih]

/-- C8: `get_ports<D>` returns the `to_port_info` translations of the `D`-direction ports
of every node, the nodes of the physical partition first and those of the software
partition after them, each node's ports in stored order; its length is the number of
`D`-direction ports of both partitions, and on a graph without nodes it is the empty
sequence. -/
theorem get_ports_enumerates (D : spa_direction) (g : graph) :
    get_ports D g =
      (g.physical_midi ++ g.software_midi).flatMap
        (fun e => (if D = spa_direction.SPA_DIRECTION_INPUT then e.2.inputs
          else e.2.outputs).map to_port_info) ∧
    (get_ports D g).length = count_ports D g.physical_midi + count_ports D g.software_midi ∧
    get_ports D { physical_midi := [], software_midi := [] } = [] := by
  have h : get_ports D g =
      (g.physical_midi ++ g.software_midi).flatMap
        (fun e => (direction_ports D e.2).map to_port_info) := by
    simp [get_ports, get_ports_partition_eq]
  refine ⟨h, ?_, rfl⟩
  rw [h, List.flatMap_append, List.length_append, length_flatMap_ports, length_flatMap_ports]

theorem map_find_eq_none_iff (key : Nat) (m : List (Nat × node)) :
    map_find key m = none ↔ key ∉ m.map Prod.fst := by
  induction m with
  | nil => simp [map_find]
  | cons e m ih =>
    by_cases h : e.1 = key
    · simp [map_find, h]
    · have h2 : ¬ key = e.1 := fun x => h x.symm
      simp [map_find, h, h2, ih]

/-- C9: write `x` for the world after the 1000 node synchronisations and `n` for the
filter node id read there. Each overload of `link_ports` returns true exactly when `n` is
a key of the software partition, the inputs (for an `input_port`) or outputs (for an
`output_port`) of that node are non-empty after `synchronize_ports`, and the link request
between the remote port id and the first port of that list succeeds. When `n` is absent or
the list is empty, the log only gains a line on `std::cerr`: no link request and no error
report. Otherwise exactly one link request is made, with the remote port id and the id of
the first port, followed by an invalid-parameter error exactly when it failed. -/
theorem link_ports_handshake {σ : Type} (w : api σ) (s : helpers σ)
    (remote : port_information) :
    (((link_ports_input w s remote).2 = true ↔
        ∃ nd p rest,
          map_find (w.filter_node_id (synchronize_node_loop w 1000 s.world))
            (w.software_midi (synchronize_node_loop w 1000 s.world)) = some nd ∧
          (w.synchronize_ports (synchronize_node_loop w 1000 s.world) nd).2.inputs
            = p :: rest ∧
          (w.link_ports (w.synchronize_ports (synchronize_node_loop w 1000 s.world) nd).1
            remote.port p.id).2 = true) ∧
      ((link_ports_output w s remote).2 = true ↔
        ∃ nd p rest,
          map_find (w.filter_node_id (synchronize_node_loop w 1000 s.world))
            (w.software_midi (synchronize_node_loop w 1000 s.world)) = some nd ∧
          (w.synchronize_ports (synchronize_node_loop w 1000 s.world) nd).2.outputs
            = p :: rest ∧
          (w.link_ports (w.synchronize_ports (synchronize_node_loop w 1000 s.world) nd).1
            p.id remote.port).2 = true)) ∧
    (w.filter_node_id (synchronize_node_loop w 1000 s.world)
        ∉ (w.software_midi (synchronize_node_loop w 1000 s.world)).map Prod.fst →
      (link_ports_input w s remote).1.calls = s.calls ++
        [call.cerr_node_not_found
          (w.filter_node_id (synchronize_node_loop w 1000 s.world))] ∧
      (link_ports_output w s remote).1.calls = s.calls ++
        [call.cerr_node_not_found
          (w.filter_node_id (synchronize_node_loop w 1000 s.world))]) ∧
    (∀ nd,
      map_find (w.filter_node_id (synchronize_node_loop w 1000 s.world))
        (w.software_midi (synchronize_node_loop w 1000 s.world)) = some nd →
      ((w.synchronize_ports (synchronize_node_loop w 1000 s.world) nd).2.inputs = [] →
        (link_ports_input w s remote).1.calls = s.calls ++
          [call.cerr_node_has_no_ports
            (w.filter_node_id (synchronize_node_loop w 1000 s.world))]) ∧
      ((w.synchronize_ports (synchronize_node_loop w 1000 s.world) nd).2.outputs = [] →
        (link_ports_output w s remote).1.calls = s.calls ++
          [call.cerr_node_has_no_ports
            (w.filter_node_id (synchronize_node_loop w 1000 s.world))]) ∧
      (∀ p rest,
        (w.synchronize_ports (synchronize_node_loop w 1000 s.world) nd).2.inputs
          = p :: rest →
        (link_ports_input w s remote).1.calls = s.calls ++
          call.link_ports remote.port p.id ::
            (if (w.link_ports
                  (w.synchronize_ports (synchronize_node_loop w 1000 s.world) nd).1
                  remote.port p.id).2 = true then []
             else [call.error error_type.invalid_parameter_error
               ("PipeWire: could not connect to port: ".toList ++ remote.port_name
                 ++ " -> ".toList ++ p.port_name)])) ∧
      (∀ p rest,
        (w.synchronize_ports (synchronize_node_loop w 1000 s.world) nd).2.outputs
          = p :: rest →
        (link_ports_output w s remote).1.calls = s.calls ++
          call.link_ports p.id remote.port ::
            (if (w.link_ports
                  (w.synchronize_ports (synchronize_node_loop w 1000 s.world) nd).1
                  p.id remote.port).2 = true then []
             else [call.error error_type.invalid_parameter_error
               ("PipeWire: could not connect to port: ".toList ++ p.port_name
                 ++ " -> ".toList ++ remote.port_name)]))) := by
  refine ⟨⟨?_, ?_⟩, ?_, ?_⟩
  · cases hm : map_find (w.filter_node_id (synchronize_node_loop w 1000 s.world))
        (w.software_midi (synchronize_node_loop w 1000 s.world)) with
    | none => simp [link_ports_input, hm]
    | some nd =>
      cases hi : (w.synchronize_ports (synchronize_node_loop w 1000 s.world) nd).2.inputs with
      | nil => simp [link_ports_input, hm, hi]
      | cons p rest =>
        cases hl : (w.link_ports
            (w.synchronize_ports (synchronize_node_loop w 1000 s.world) nd).1
            remote.port p.id).2 <;> simp [link_ports_input, hm, hi, hl]
  · cases hm : map_find (w.filter_node_id (synchronize_node_loop w 1000 s.world))
        (w.software_midi (synchronize_node_loop w 1000 s.world)) with
    | none => simp [link_ports_output, hm]
    | some nd =>
      cases hi : (w.synchronize_ports (synchronize_node_loop w 1000 s.world) nd).2.outputs with
      | nil => simp [link_ports_output, hm, hi]
      | cons p rest =>
        cases hl : (w.link_ports
            (w.synchronize_ports (synchronize_node_loop w 1000 s.world) nd).1
            p.id remote.port).2 <;> simp [link_ports_output, hm, hi, hl]
  · intro habs
    have hm := (map_find_eq_none_iff _ _).mpr habs
    simp [link_ports_input, link_ports_output, hm, helpers.log]
  · intro nd hm
    refine ⟨?_, ?_, ?_, ?_⟩
    · intro hi
      simp [link_ports_input, hm, hi, helpers.log]
    · intro hi
      simp [link_ports_output, hm, hi, helpers.log]
    · intro p rest hi
      cases hl : (w.link_ports
          (w.synchronize_ports (synchronize_node_loop w 1000 s.world) nd).1
          remote.port p.id).2 <;> simp [link_ports_input, hm, hi, hl, helpers.log]
    · intro p rest hi
      cases hl : (w.link_ports
          (w.synchronize_ports (synchronize_node_loop w 1000 s.world) nd).1
          p.id remote.port).2 <;> simp [link_ports_output, hm, hi, hl, helpers.log]

/-- C9, on the example worlds: with the filter node present and holding ports, both
overloads return true; with the filter node missing from the software partition, both only
write the "not found" line. -/
theorem link_ports_handshake_witness :
    ((link_ports_input example_pw example_helpers example_remote).2 = true ∧
      (link_ports_output example_pw example_helpers example_remote).2 = true) ∧
    ((link_ports_input example_pw_missing_node example_helpers example_remote).1.calls
        = example_helpers.calls ++
          [call.cerr_node_not_found (example_pw_missing_node.filter_node_id
            (synchronize_node_loop example_pw_missing_node 1000 example_helpers.world))] ∧
      (link_ports_output example_pw_missing_node example_helpers example_remote).1.calls
        = example_helpers.calls ++
          [call.cerr_node_not_found (example_pw_missing_node.filter_node_id
            (synchronize_node_loop example_pw_missing_node 1000 example_helpers.world))]) :=
  ⟨⟨(link_ports_handshake example_pw example_helpers example_remote).1.1.mpr
      ⟨{ inputs := [example_virtual_port], outputs := [example_virtual_port] },
        example_virtual_port, [], rfl, rfl, rfl⟩,
    (link_ports_handshake example_pw example_helpers example_remote).1.2.mpr
      ⟨{ inputs := [example_virtual_port], outputs := [example_virtual_port] },
        example_virtual_port, [], rfl, rfl, rfl⟩⟩,
   (link_ports_handshake example_pw_missing_node example_helpers example_remote).2.1
      (by decide)⟩

theorem deliver_append (conf : observer_configuration) (a b : List port_event) :
    deliver conf (a ++ b) = deliver conf a ++ deliver conf b := by
  induction a with
  | nil => rfl
  | cons e a ih => simp [deliver, ih]

theorem mem_deliver_of_mem (conf : observer_configuration) (evs : List port_event)
    (e : port_event) (c : callback) (he : e ∈ evs) (hc : c ∈ dispatch conf e) :
    c ∈ deliver conf evs := by
  induction evs with
  | nil => simp at he
  | cons x evs ih =>
    rcases List.mem_cons.mp he with h | h
    · subst h
      simp [deliver, hc]
    · simp [deliver, ih h]

theorem on_port_removed_accepts (conf : observer_configuration) (port : port_info)
    (h : on_port_removed conf port ≠ []) :
    "midi".toList <:+: port.format ∧
    (conf.track_any = true ∨ (port.physical = true ∧ conf.track_hardware = true) ∨
      (port.physical = false ∧ conf.track_virtual = true)) := by
  by_cases hf : "midi".toList <:+: port.format
  · refine ⟨hf, ?_⟩
    have hf2 : ¬ find_str "midi".toList port.format = none :=
      (find_str_ne_none_iff _ _).mpr hf
    rw [midi_chars] at hf2
    revert h
    cases ha : conf.track_any <;> cases hp : port.physical <;>
      cases hh : conf.track_hardware <;> cases hv : conf.track_virtual <;>
      simp [on_port_removed, hf2, ha, hp, hh, hv]
  · have hf2 : find_str "midi".toList port.format = none :=
      (find_str_eq_none_iff _ _).mpr hf
    rw [midi_chars] at hf2
    exact absurd (by simp [on_port_removed, hf2]) h

theorem on_port_removed_cases (conf : observer_configuration) (port : port_info) :
    on_port_removed conf port = [] ∨
    (port.direction = spa_direction.SPA_DIRECTION_INPUT ∧
      on_port_removed conf port = [callback.output_removed (to_port_info port)]) ∨
    (port.direction = spa_direction.SPA_DIRECTION_OUTPUT ∧
      on_port_removed conf port = [callback.input_removed (to_port_info port)]) := by
  unfold on_port_removed
  cases hd : port.direction <;> simp only [] <;> split_ifs <;> simp_all

theorem on_port_added_accepted (conf : observer_configuration) (port : port_info)
    (hf : "midi".toList <:+: port.format)
    (hacc : conf.track_any = true ∨ (port.physical = true ∧ conf.track_hardware = true) ∨
      (port.physical = false ∧ conf.track_virtual = true)) :
    (port.direction = spa_direction.SPA_DIRECTION_INPUT → conf.output_added = true →
      on_port_added conf port = [callback.output_added (to_port_info port)]) ∧
    (port.direction = spa_direction.SPA_DIRECTION_OUTPUT → conf.input_added = true →
      on_port_added conf port = [callback.input_added (to_port_info port)]) := by
  have hf2 : ¬ find_str "midi".toList port.format = none :=
    (find_str_ne_none_iff _ _).mpr hf
  have hu : (conf.track_any || (port.physical && conf.track_hardware)
      || (!port.physical && conf.track_virtual)) = true := by
    rcases hacc with h | ⟨h1, h2⟩ | ⟨h1, h2⟩ <;> simp [*]
  constructor
  · intro hd hs
    simp only [on_port_added, hf2, hu, hd, hs, if_true, if_false]
  · intro hd hs
    simp only [on_port_added, hf2, hu, hd, hs, if_true, if_false]
    simp

/-- C11, as amended: in any sequence of notifications, the callbacks of a port-removed
notification sit after those of the earlier notifications; each of them is the removed
callback of the port's inverted direction with the descriptor of that port, and it is
invoked only for a port whose format contains "midi" and that passes the filter, the very
test of the port-added hook. So when the same port was delivered to the port-added hook
earlier in the sequence and the corresponding added slot is registered, the corresponding
added callback was invoked for that port earlier. -/
theorem removed_callback_follows_filter (conf : observer_configuration)
    (pre post : List port_event) (port : port_info) :
    deliver conf (pre ++ port_event.port_removed port :: post)
      = deliver conf pre ++ on_port_removed conf port ++ deliver conf post ∧
    (∀ c ∈ on_port_removed conf port,
      ((c = callback.output_removed (to_port_info port) ∧
          port.direction = spa_direction.SPA_DIRECTION_INPUT) ∨
        (c = callback.input_removed (to_port_info port) ∧
          port.direction = spa_direction.SPA_DIRECTION_OUTPUT)) ∧
      "midi".toList <:+: port.format ∧
      (conf.track_any = true ∨ (port.physical = true ∧ conf.track_hardware = true) ∨
        (port.physical = false ∧ conf.track_virtual = true))) ∧
    (port_event.port_added port ∈ pre →
      (callback.output_removed (to_port_info port) ∈ on_port_removed conf port →
        conf.output_added = true →
        callback.output_added (to_port_info port) ∈ deliver conf pre) ∧
      (callback.input_removed (to_port_info port) ∈ on_port_removed conf port →
        conf.input_added = true →
        callback.input_added (to_port_info port) ∈ deliver conf pre)) := by
  refine ⟨?_, ?_, ?_⟩
  · rw [deliver_append]
    simp [deliver, dispatch]
  · intro c hc
    have hne : on_port_removed conf port ≠ [] := List.ne_nil_of_mem hc
    refine ⟨?_, on_port_removed_accepts conf port hne⟩
    rcases on_port_removed_cases conf port with h | ⟨hd, h⟩ | ⟨hd, h⟩
    · exact absurd h hne
    · rw [h] at hc
      exact Or.inl ⟨by simpa using hc, hd⟩
    · rw [h] at hc
      exact Or.inr ⟨by simpa using hc, hd⟩
  · intro hadd
    constructor
    · intro hmem hs
      have hne : on_port_removed conf port ≠ [] := List.ne_nil_of_mem hmem
      obtain ⟨hf, hacc⟩ := on_port_removed_accepts conf port hne
      have hd : port.direction = spa_direction.SPA_DIRECTION_INPUT := by
        rcases on_port_removed_cases conf port with h | ⟨hd, _⟩ | ⟨_, h⟩
        · exact absurd h hne
        · exact hd
        · rw [h] at hmem
          simp at hmem
      apply mem_deliver_of_mem conf pre (port_event.port_added port) _ hadd
      simp [dispatch, (on_port_added_accepted conf port hf hacc).1 hd hs]
    · intro hmem hs
      have hne : on_port_removed conf port ≠ [] := List.ne_nil_of_mem hmem
      obtain ⟨hf, hacc⟩ := on_port_removed_accepts conf port hne
      have hd : port.direction = spa_direction.SPA_DIRECTION_OUTPUT := by
        rcases on_port_removed_cases conf port with h | ⟨_, h⟩ | ⟨hd, _⟩
        · exact absurd h hne
        · rw [h] at hmem
          simp at hmem
        · exact hd
      apply mem_deliver_of_mem conf pre (port_event.port_added port) _ hadd
      simp [dispatch, (on_port_added_accepted conf port hf hacc).2 hd hs]

/-- C11, on the example: when the physical input port is added and then removed under the
hardware observer, the `output_added` call for it precedes the `output_removed` call. -/
theorem removed_callback_follows_filter_witness :
    callback.output_added (to_port_info example_port)
      ∈ deliver hardware_observer [port_event.port_added example_port] :=
  ((removed_callback_follows_filter hardware_observer
      [port_event.port_added example_port] [] example_port).2.2 (by decide)).1
    (by decide) rfl

/-- C11 fails as stated: a port-removed notification that nothing preceded invokes
`output_removed`; and with the removed slot registered but the added slot empty, adding
and then removing the port invokes `output_removed` and never `output_added`. -/
theorem removed_without_added_counterexample :
    deliver hardware_observer [port_event.port_removed example_port]
      = [callback.output_removed (to_port_info example_port)] ∧
    deliver removal_only_observer
        [port_event.port_added example_port, port_event.port_removed example_port]
      = [callback.output_removed (to_port_info example_port)] := by
  refine ⟨by decide, by decide⟩

end pipewire

end libremidi
